import Mathlib

set_option autoImplicit false

/-!
Verification of the segmentation-and-delivery state machine of the
whisper-chunks-tests-ui repository.

The embedding follows `src/src/App.tsx` (the canonical rolling-recorder
loop), `src/src/requests.ts` (transport), and, where a claim cites it,
the variant component in `src/unnamed/part_000`.

Modelling conventions:
- The asynchronous recorder loop is embedded as a step function over an
  explicit mutable-state record.  One `FlushEvent` stands for one
  `ondataavailable` invocation of a capture window (chunk size, whether
  the `uploadChunk` call resolves or rejects, and the wall clock used
  for `Date.now()` in `persistFromState`).
- React render-closure values (`sessionId`, `timesliceMs`, the four
  participant ids) are captured once per loop in `UiState`, matching the
  fact that the recursive `startNewRecorder` chain closes over a single
  render's values.  Mutable refs (`startMsRef`, `runningRef`, `seqBox`)
  and React state that the loop reads dynamically live in `MutState`.
  `seqBox` (the stable ref behind `seqRef()`) is synchronised with `seq`
  at the end of each handler invocation, reflecting that the
  `useEffect([seq])` sync runs between macrotasks, never inside one.
- `localStorage` holds at most the one record under STORAGE_KEY; it is
  embedded as an `Option PersistedSession`.
-/

/-- Checkpoint status: the TS string union `'active' | 'ready'`. -/
inductive Status
  | active
  | ready
  deriving DecidableEq, Repr

/-- The `PersistedSession` record of App.tsx (the checkpoint layout). -/
structure PersistedSession where
  status : Status
  sessionId : String
  seq : Int
  startMs : Int
  timesliceMs : Int
  therapistId : String
  patientId : String
  organizationId : String
  appointmentId : String
  updatedAt : Int
  deriving DecidableEq, Repr

/-- Render-closure values captured by the recorder loop of App.tsx. -/
structure UiState where
  sessionId : String
  timesliceMs : Int
  therapistId : String
  patientId : String
  organizationId : String
  appointmentId : String
  deriving DecidableEq, Repr

/-- Mutable state of the App component that the loop reads and writes:
refs (`startMsRef`, `runningRef`, `seqBox`), counters, flags, and the
localStorage slot. `windowOpen` records whether a capture window with an
armed `ondataavailable` handler exists (a `MediaRecorder` was started
and not yet flushed). -/
structure MutState where
  running : Bool
  windowOpen : Bool
  seq : Int
  seqBox : Int
  startMs : Int
  chunksSent : Nat
  errors : Nat
  isReady : Bool
  isRecording : Bool
  persisted : Option PersistedSession
  deriving DecidableEq, Repr

/-- One `ondataavailable` invocation: the flushed blob's size, whether
the `uploadChunk` promise resolves, and the clock value `Date.now()`
returns during the invocation. -/
structure FlushEvent where
  size : Nat
  uploadOk : Bool
  now : Int
  deriving DecidableEq, Repr

/-- The arguments App.tsx hands to `uploadChunk` for one segment
(one delivery attempt), plus the attempt's outcome. -/
structure UploadAttempt where
  sessionId : String
  seq : Int
  startMs : Int
  endMs : Int
  therapistId : String
  patientId : String
  organizationId : String
  appointmentId : String
  size : Nat
  ok : Bool
  deriving DecidableEq, Repr

/-- The override argument of `persistFromState` (the
`Partial<PersistedSession>` fields the code actually passes). -/
structure Overrides where
  status : Option Status
  seq : Option Int
  startMs : Option Int
  deriving DecidableEq, Repr

/-- `persistFromState` of App.tsx: builds the checkpoint from the render
closure (`ui`), the refs (`s.seqBox` via `seqRef()`, `s.startMs` via
`startMsRef.current`), the clock, and the overrides, which are spread
last and therefore win. -/
def mkCheckpoint (ui : UiState) (s : MutState) (nowMs : Int) (ov : Overrides) :
    PersistedSession :=
  { status := ov.status.getD Status.active
    sessionId := ui.sessionId
    seq := ov.seq.getD s.seqBox
    startMs := ov.startMs.getD s.startMs
    timesliceMs := ui.timesliceMs
    therapistId := ui.therapistId
    patientId := ui.patientId
    organizationId := ui.organizationId
    appointmentId := ui.appointmentId
    updatedAt := nowMs }

/-- The body of `mr.ondataavailable` in App.tsx `startNewRecorder`
(lines 116-159).  Returns the successor state and the delivery attempt,
if any, that the invocation performed.

Faithful details:
- `shouldContinue` is read from `runningRef` at handler entry.
- The whole upload/advance block is guarded by `chunk.size > 0`.
- `persistFromState({seq: nextSeq, startMs: endMs})` runs only in the
  success branch of the try; the catch branch only bumps the error
  counter.
- Then `startMsRef.current = endMs; setSeq(nextSeq)` run in both
  branches.
- When `shouldContinue` is false the ready checkpoint is built from the
  un-synchronised `seqBox` (the `useEffect([seq])` sync has not run yet
  inside the same invocation) and the already-advanced `startMsRef`.
- `seqBox` is synchronised with `seq` after the invocation. -/
def handleFlush (ui : UiState) (s : MutState) (ev : FlushEvent) :
    MutState × Option UploadAttempt :=
  let shouldContinue := s.running
  let r :=
    if 0 < ev.size then
      let currentSeq := s.seqBox
      let startMs := s.startMs
      let endMs := startMs + ui.timesliceMs
      let nextSeq := currentSeq + 1
      let a : UploadAttempt :=
        { sessionId := ui.sessionId
          seq := currentSeq
          startMs := startMs
          endMs := endMs
          therapistId := ui.therapistId
          patientId := ui.patientId
          organizationId := ui.organizationId
          appointmentId := ui.appointmentId
          size := ev.size
          ok := ev.uploadOk }
      let s2 :=
        if ev.uploadOk then
          { s with chunksSent := s.chunksSent + 1
                   persisted := some (mkCheckpoint ui s ev.now
                     ⟨none, some nextSeq, some endMs⟩) }
        else
          { s with errors := s.errors + 1 }
      ({ s2 with startMs := endMs, seq := nextSeq }, some a)
    else
      (s, none)
  let s1 := r.1
  let s3 :=
    if shouldContinue then
      -- startNewRecorder(): the next capture window opens immediately
      { s1 with windowOpen := true }
    else
      { s1 with windowOpen := false
                isReady := true
                persisted := some (mkCheckpoint ui s1 ev.now
                  ⟨some Status.ready, none, none⟩) }
  ({ s3 with seqBox := s3.seq }, r.2)

/-- `stopRecording` of App.tsx (lines 319-351): guards on an existing
recorder, clears the recording flag and `runningRef`, and stops the
current recorder — which makes the browser fire its final
`ondataavailable`, supplied to the model as the next `FlushEvent`. -/
def stopRecording (s : MutState) : MutState :=
  if s.windowOpen then
    { s with isRecording := false, running := false }
  else
    s

/-- One observable action of a run: a capture-window flush or a user
`stop()` click. -/
inductive Step
  | flush (ev : FlushEvent)
  | stop
  deriving DecidableEq, Repr

/-- Dispatch one step.  A flush only does something when a window with
an armed handler exists. -/
def stepOne (ui : UiState) (s : MutState) : Step → MutState × Option UploadAttempt
  | Step.flush ev => if s.windowOpen then handleFlush ui s ev else (s, none)
  | Step.stop => (stopRecording s, none)

/-- Run a list of steps, collecting the delivery attempts in order. -/
def runSteps (ui : UiState) (s : MutState) : List Step → MutState × List UploadAttempt
  | [] => (s, [])
  | st :: rest =>
    let r := stepOne ui s st
    let r2 := runSteps ui r.1 rest
    (r2.1, r.2.toList ++ r2.2)

/-- The fresh-start branch of `startRecording` (App.tsx lines 204-215):
reset the cursor and counters, persist an active checkpoint at
`seq = 0, startMs = Date.now()`, and open the first window. -/
def startFresh (ui : UiState) (s : MutState) (nowMs : Int) : MutState :=
  let s1 := { s with running := true
                     isRecording := true
                     startMs := nowMs
                     seq := 0
                     seqBox := 0
                     chunksSent := 0
                     errors := 0 }
  let s2 := { s1 with persisted := some (mkCheckpoint ui s1 nowMs
                 ⟨some Status.active, some 0, some nowMs⟩) }
  { s2 with windowOpen := true }

/-- `startRecording` of App.tsx (lines 172-222), mic path with the
`getUserMedia` call succeeding.  Resumes iff a persisted checkpoint
exists with `status === 'active'`, a matching `sessionId`, and
`seq >= 0`; otherwise starts fresh.

In the resume branch `persistFromState()` runs before any re-render, so
it reads the pre-call `seqBox` and the already-updated `startMsRef`;
the state setters (`setSeq`, `setTimesliceMs`, the id setters) only
affect later renders, and the loop that `startNewRecorder` starts
closes over the current render's `ui`.  By the time the first window
flushes (one timeslice later) the `useEffect([seq])` sync has run, so
the loop state carries `seqBox = seq = p.seq`. -/
def startRecordingMic (ui : UiState) (s : MutState) (nowMs : Int) : MutState :=
  match s.persisted with
  | some p =>
    if p.status = Status.active ∧ p.sessionId = ui.sessionId ∧ 0 ≤ p.seq then
      let s1 := { s with running := true, isRecording := true, startMs := p.startMs }
      let s2 := { s1 with persisted := some (mkCheckpoint ui s1 nowMs ⟨none, none, none⟩) }
      { s2 with seq := p.seq, seqBox := p.seq, windowOpen := true }
    else
      startFresh ui s nowMs
  | none => startFresh ui s nowMs

/-- Pairwise well-formedness of the delivered segments of one session,
exactly as §8 of the spec states it: every delivered segment spans one
timeslice, and each consecutively delivered pair is contiguous with the
sequence number incremented by one. -/
def segOk (tms : Int) : List UploadAttempt → Bool
  | [] => true
  | [a] => decide (a.endMs = a.startMs + tms)
  | a :: b :: rest =>
    decide (a.endMs = a.startMs + tms) && decide (b.startMs = a.endMs)
      && decide (b.seq = a.seq + 1) && segOk tms (b :: rest)

/-- Delivered segments are exactly successive slots of the cursor
`(seqC, startC)`: a strengthening of `segOk` that anchors the chain. -/
def chainFrom (tms : Int) (seqC startC : Int) : List UploadAttempt → Bool
  | [] => true
  | a :: rest =>
    decide (a.seq = seqC) && decide (a.startMs = startC)
      && decide (a.endMs = startC + tms)
      && chainFrom tms (seqC + 1) (startC + tms) rest

/-- Concrete render closure used by witnesses. -/
def uiW : UiState := ⟨"s1", 1000, "t", "p", "o", "a"⟩

/-- Concrete loop-start state used by witnesses: rotating, cursor at
`(0, 0)`, no checkpoint yet. -/
def sW : MutState := ⟨true, true, 0, 0, 0, 0, 0, false, true, none⟩

/-- A non-empty flush whose upload resolves. -/
def evOkW : FlushEvent := ⟨5, true, 77⟩

/-- A non-empty flush whose upload rejects. -/
def evFailW : FlushEvent := ⟨5, false, 77⟩

/-- An empty flush (zero-length blob). -/
def evZeroW : FlushEvent := ⟨0, true, 77⟩

/-- A run mixing success, an empty window, a failure, and a stop with a
draining window. -/
def stepsW : List Step :=
  [Step.flush evOkW, Step.flush evZeroW, Step.flush evFailW, Step.stop,
   Step.flush evOkW, Step.flush evOkW]

/-- A concrete active checkpoint for session "s1" at `seq = 5`,
`startMs = 5000`. -/
def cpW : PersistedSession := ⟨Status.active, "s1", 5, 5000, 1000, "t", "p", "o", "a", 1⟩

/-- An idle state holding the checkpoint `cpW`. -/
def sResW : MutState := ⟨false, false, 0, 0, 0, 0, 0, false, false, some cpW⟩

/-- A render closure whose session id differs from `cpW`'s. -/
def uiDiffW : UiState := ⟨"another-session", 1000, "t", "p", "o", "a"⟩

/-- A rotating state with the cursor at `(5, 100)` and no checkpoint. -/
def s5W : MutState := ⟨true, true, 5, 5, 100, 0, 0, false, true, none⟩

/-- `loadPersisted` over the one-slot store (App.tsx lines 22-30):
returns whatever the slot holds. -/
def loadPersisted (store : Option PersistedSession) : Option PersistedSession :=
  store

/-- The `finalize` click handler of App.tsx (lines 352-371) restricted
to its effect on the checkpoint store: `clearPersisted()` runs only
after `finalizeSession` resolves; when the call rejects, the catch
block merely logs and the store is untouched. -/
def finalizeClick (store : Option PersistedSession) (callOk : Bool) :
    Option PersistedSession :=
  if callOk then
    -- try-branch completes: clearPersisted()
    none
  else
    -- catch-branch: only pushLog, store untouched
    store

/-- `stopAndFinalizeRecording` of `src/unnamed/part_000` (lines
252-290) restricted to its effect on the checkpoint store: the
`finally` block runs `clearPersisted()` on both the success and the
error path. -/
def stopAndFinalizeStore (store : Option PersistedSession) (callOk : Bool) :
    Option PersistedSession :=
  if callOk then
    -- try completes, finally: clearPersisted()
    none
  else
    -- catch logs the error, finally: clearPersisted()
    none

/-- An HTTP response as `finalizeSession` observes it via fetch:
`res.ok`, `res.status`, and the body text. -/
structure HttpResponse where
  ok : Bool
  status : Int
  body : String
  deriving DecidableEq, Repr

/-- An opaque carrier for parsed JSON values.  `JSON.parse` is a
platform primitive; `finalizeSession` only forwards its result, so the
embedding abstracts the parser as an oracle `String → Option Json`. -/
inductive Json
  | jnull
  | jbool (b : Bool)
  | jnum (n : Int)
  | jstr (s : String)
  deriving DecidableEq, Repr

/-- The three success shapes a `finalizeSession` call can return. -/
inductive FinalizeResult
  | nullResult
  | jsonResult (j : Json)
  | textResult (t : String)
  deriving DecidableEq, Repr

/-- JS `String.prototype.trim`: strip leading and trailing whitespace.
Embedded over the character list so that it evaluates by reduction. -/
def jsTrim (s : String) : String :=
  String.mk ((s.data.dropWhile Char.isWhitespace).reverse.dropWhile Char.isWhitespace).reverse

/-- `finalizeSession` of requests.ts (lines 40-57): non-ok status
throws; an ok response with a blank (empty after trim) body returns
null; a body `JSON.parse` accepts returns the parsed value; otherwise
the body is returned as plain text. -/
def finalizeSession (parseJson : String → Option Json) (resp : HttpResponse) :
    Except String FinalizeResult :=
  if resp.ok = false then
    Except.error ("Server responded with " ++ toString resp.status ++ ": " ++ resp.body)
  else
    let text := resp.body
    if jsTrim text = "" then
      Except.ok FinalizeResult.nullResult
    else
      match parseJson text with
      | some j => Except.ok (FinalizeResult.jsonResult j)
      | none => Except.ok (FinalizeResult.textResult text)

/-- The `UploadChunkParams` of requests.ts; the four participant refs
are optional strings. -/
structure ChunkParams where
  size : Nat
  mimeType : String
  sessionId : String
  seq : Int
  startMs : Int
  endMs : Int
  therapistId : Option String
  patientId : Option String
  organizationId : Option String
  appointmentId : Option String
  deriving DecidableEq, Repr

/-- One conditional `fd.append(key, v)` of `uploadChunk`: the guard
`if (p.x)` is JS truthiness, so both `undefined` and the empty string
are skipped. -/
def optField (key : String) (v : Option String) : List (String × String) :=
  match v with
  | some t => if t = "" then [] else [(key, t)]
  | none => []

/-- The FormData entries `uploadChunk` of requests.ts (lines 20-38)
builds, in append order. -/
def uploadChunkForm (p : ChunkParams) : List (String × String) :=
  [("file", "chunk-" ++ toString p.seq ++ ".webm"),
   ("mimeType", p.mimeType),
   ("sessionId", p.sessionId),
   ("seq", toString p.seq),
   ("startMs", toString p.startMs),
   ("endMs", toString p.endMs)]
  ++ optField "therapistId" p.therapistId
  ++ optField "patientId" p.patientId
  ++ optField "organizationId" p.organizationId
  ++ optField "appointmentId" p.appointmentId

/-- The `FinalizePayload` of requests.ts. -/
structure FinalizePayload where
  sessionId : String
  therapistId : Option String
  patientId : Option String
  organizationId : Option String
  appointmentId : Option String
  deriving DecidableEq, Repr

/-- One field of `JSON.stringify(payload)`: a defined field is kept
verbatim — the empty string included — and an undefined one is
dropped. -/
def jsonField (key : String) (v : Option String) : List (String × String) :=
  match v with
  | some t => [(key, t)]
  | none => []

/-- The key/value pairs of the JSON body `finalizeSession` of
requests.ts posts. -/
def finalizeBody (p : FinalizePayload) : List (String × String) :=
  ("sessionId", p.sessionId)
    :: (jsonField "therapistId" p.therapistId
        ++ jsonField "patientId" p.patientId
        ++ jsonField "organizationId" p.organizationId
        ++ jsonField "appointmentId" p.appointmentId)

/-- A capture window with its `ondataavailable` slot: `attached` is
whether the handler installed by `startNewRecorder` is still set (the
handler's first statement is `mr.ondataavailable = null`).  Firing the
event on a window whose slot is null does nothing. -/
def fireWindow (ui : UiState) (attached : Bool) (s : MutState) (ev : FlushEvent) :
    Bool × MutState × Option UploadAttempt :=
  if attached then
    let r := handleFlush ui s ev
    (false, r.1, r.2)
  else
    (attached, s, none)

/-- Chunk params whose `therapistId` is present but empty — the JS
truthiness guard drops it from the form data. -/
def cpEmptyW : ChunkParams :=
  ⟨5, "audio/webm", "s1", 0, 0, 1000, some "", some "p", some "o", some "a"⟩

/-- Finalize payload with the same empty `therapistId` — JSON.stringify
keeps it. -/
def fpEmptyW : FinalizePayload := ⟨"s1", some "", some "p", some "o", some "a"⟩

/-- A parse oracle that accepts only the literal string "1". -/
def parseOnlyOneW : String → Option Json :=
  fun t => if t = "1" then some (Json.jnum 1) else none

/-- A 500 response. -/
def respErrW : HttpResponse := ⟨false, 500, "boom"⟩

/-- An ok response with an empty body. -/
def respEmptyW : HttpResponse := ⟨true, 200, ""⟩

/-- An ok response whose body the oracle parses. -/
def respJsonW : HttpResponse := ⟨true, 200, "1"⟩

/-- An ok response with a non-JSON body. -/
def respTextW : HttpResponse := ⟨true, 200, "plain"⟩

theorem stopRecording_seq (s : MutState) : (stopRecording s).seq = s.seq := by
  simp only [stopRecording]; split <;> rfl

theorem stopRecording_seqBox (s : MutState) : (stopRecording s).seqBox = s.seqBox := by
  simp only [stopRecording]; split <;> rfl

theorem stopRecording_startMs (s : MutState) : (stopRecording s).startMs = s.startMs := by
  simp only [stopRecording]; split <;> rfl

theorem handleFlush_seqBox_eq (ui : UiState) (s : MutState) (ev : FlushEvent) :
    (handleFlush ui s ev).1.seqBox = (handleFlush ui s ev).1.seq := rfl

/-- A non-empty flush performs exactly the delivery attempt built from
the current cursor and advances the cursor by one slot, whatever the
upload outcome. -/
theorem handleFlush_pos (ui : UiState) (s : MutState) (ev : FlushEvent)
    (h : 0 < ev.size) :
    (handleFlush ui s ev).2 =
      some { sessionId := ui.sessionId, seq := s.seqBox, startMs := s.startMs,
             endMs := s.startMs + ui.timesliceMs,
             therapistId := ui.therapistId, patientId := ui.patientId,
             organizationId := ui.organizationId, appointmentId := ui.appointmentId,
             size := ev.size, ok := ev.uploadOk }
    ∧ (handleFlush ui s ev).1.seq = s.seqBox + 1
    ∧ (handleFlush ui s ev).1.startMs = s.startMs + ui.timesliceMs := by
  unfold handleFlush
  simp only [if_pos h]
  by_cases hr : s.running <;> by_cases hu : ev.uploadOk <;> simp [hr, hu]

/-- An empty flush performs no delivery attempt and leaves the cursor
where it was. -/
theorem handleFlush_zero (ui : UiState) (s : MutState) (ev : FlushEvent)
    (h : ¬ 0 < ev.size) :
    (handleFlush ui s ev).2 = none
    ∧ (handleFlush ui s ev).1.seq = s.seq
    ∧ (handleFlush ui s ev).1.startMs = s.startMs := by
  unfold handleFlush
  simp only [if_neg h]
  by_cases hr : s.running <;> simp [hr]

theorem chainFrom_cons (tms seqC startC : Int) (a : UploadAttempt)
    (rest : List UploadAttempt) :
    chainFrom tms seqC startC (a :: rest) =
      (decide (a.seq = seqC) && decide (a.startMs = startC)
        && decide (a.endMs = startC + tms)
        && chainFrom tms (seqC + 1) (startC + tms) rest) := rfl

theorem segOk_cons_cons (tms : Int) (a b : UploadAttempt)
    (rest : List UploadAttempt) :
    segOk tms (a :: b :: rest) =
      (decide (a.endMs = a.startMs + tms) && decide (b.startMs = a.endMs)
        && decide (b.seq = a.seq + 1) && segOk tms (b :: rest)) := rfl

/-- Loop invariant: starting from any state whose `seqBox` ref is in
sync with `seq`, every run delivers exactly successive cursor slots. -/
theorem runSteps_chain (ui : UiState) :
    ∀ (steps : List Step) (s : MutState), s.seqBox = s.seq →
      chainFrom ui.timesliceMs s.seq s.startMs (runSteps ui s steps).2 = true := by
  intro steps
  induction steps with
  | nil => intro s _; rfl
  | cons st rest ih =>
    intro s h
    cases st with
    | stop =>
      simp only [runSteps, stepOne, Option.toList_none, List.nil_append]
      have h2 : (stopRecording s).seqBox = (stopRecording s).seq := by
        rw [stopRecording_seqBox, stopRecording_seq, h]
      have := ih (stopRecording s) h2
      rwa [stopRecording_seq, stopRecording_startMs] at this
    | flush ev =>
      simp only [runSteps, stepOne]
      by_cases hw : s.windowOpen
      · simp only [if_pos hw]
        by_cases hsz : 0 < ev.size
        · obtain ⟨ha, hseq, hst⟩ := handleFlush_pos ui s ev hsz
          have := ih (handleFlush ui s ev).1 (handleFlush_seqBox_eq ui s ev)
          rw [hseq, hst, h] at this
          rw [ha]
          simp only [Option.toList_some, List.cons_append, List.nil_append,
            chainFrom_cons, Bool.and_eq_true, decide_eq_true_eq]
          exact ⟨⟨⟨h, trivial⟩, trivial⟩, this⟩
        · obtain ⟨ha, hseq, hst⟩ := handleFlush_zero ui s ev hsz
          have := ih (handleFlush ui s ev).1 (handleFlush_seqBox_eq ui s ev)
          rw [hseq, hst] at this
          rw [ha]
          simpa using this
      · simp only [if_neg hw, Option.toList_none, List.nil_append]
        exact ih s h

/-- An anchored chain satisfies the pairwise contiguity predicate. -/
theorem chainFrom_segOk (tms : Int) :
    ∀ (l : List UploadAttempt) (seqC startC : Int),
      chainFrom tms seqC startC l = true → segOk tms l = true := by
  intro l
  induction l with
  | nil => intro _ _ _; rfl
  | cons a rest ih =>
    intro seqC startC hch
    rw [chainFrom_cons] at hch
    simp only [Bool.and_eq_true, decide_eq_true_eq] at hch
    obtain ⟨⟨⟨ha1, ha2⟩, ha3⟩, hrest⟩ := hch
    cases rest with
    | nil =>
      simp only [segOk, decide_eq_true_eq]
      omega
    | cons b rest2 =>
      have hseg2 : segOk tms (b :: rest2) = true := ih (seqC + 1) (startC + tms) hrest
      have hb : b.seq = seqC + 1 ∧ b.startMs = startC + tms := by
        rw [chainFrom_cons] at hrest
        simp only [Bool.and_eq_true, decide_eq_true_eq] at hrest
        exact ⟨hrest.1.1.1, hrest.1.1.2⟩
      rw [segOk_cons_cons]
      simp only [Bool.and_eq_true, decide_eq_true_eq]
      exact ⟨⟨⟨by omega, by omega⟩, by omega⟩, hseg2⟩

/-- C1: For every session and every pair of consecutively delivered
segments, segment i's endMs equals segment i+1's startMs, with
endMs = startMs + timesliceMs for each segment, and the seq field of
delivered segments increases by exactly 1 per rotation, regardless of
whether each delivery attempt succeeded or failed. -/
theorem claim1_delivered_segments_contiguous (ui : UiState) (s : MutState)
    (steps : List Step) (h : s.seqBox = s.seq) :
    segOk ui.timesliceMs (runSteps ui s steps).2 = true :=
  chainFrom_segOk ui.timesliceMs (runSteps ui s steps).2 s.seq s.startMs
    (runSteps_chain ui steps s h)

theorem claim1_witness :
    sW.seqBox = sW.seq
    ∧ segOk uiW.timesliceMs (runSteps uiW sW stepsW).2 = true :=
  ⟨rfl, claim1_delivered_segments_contiguous uiW sW stepsW rfl⟩

/-- C3 (amended): After every delivery attempt for a non-empty segment
the scheduler advances its `(seq, startMs)` cursor by one slot whatever
the outcome, but the checkpoint with `status = Active` carrying the
advanced cursor is persisted only when the delivery succeeded; a failed
delivery leaves the previously persisted checkpoint untouched. -/
theorem claim3_amended (ui : UiState) (s : MutState) (ev : FlushEvent)
    (h : 0 < ev.size) :
    ((handleFlush ui s ev).1.seq = s.seqBox + 1
      ∧ (handleFlush ui s ev).1.startMs = s.startMs + ui.timesliceMs)
    ∧ (ev.uploadOk = true → s.running = true →
        (handleFlush ui s ev).1.persisted =
          some { status := Status.active
                 sessionId := ui.sessionId
                 seq := s.seqBox + 1
                 startMs := s.startMs + ui.timesliceMs
                 timesliceMs := ui.timesliceMs
                 therapistId := ui.therapistId
                 patientId := ui.patientId
                 organizationId := ui.organizationId
                 appointmentId := ui.appointmentId
                 updatedAt := ev.now })
    ∧ (ev.uploadOk = false → s.running = true →
        (handleFlush ui s ev).1.persisted = s.persisted) := by
  refine ⟨?_, ?_, ?_⟩
  · exact ⟨(handleFlush_pos ui s ev h).2.1, (handleFlush_pos ui s ev h).2.2⟩
  · intro hu hr
    unfold handleFlush
    simp [if_pos h, hu, hr, mkCheckpoint]
  · intro hu hr
    unfold handleFlush
    simp [if_pos h, hu, hr]

theorem claim3_witness :
    (0 < evOkW.size ∧ evOkW.uploadOk = true ∧ sW.running = true)
    ∧ (handleFlush uiW sW evOkW).1.seq = sW.seqBox + 1
    ∧ (handleFlush uiW sW evOkW).1.persisted =
        some { status := Status.active, sessionId := "s1", seq := 1,
               startMs := 1000, timesliceMs := 1000, therapistId := "t",
               patientId := "p", organizationId := "o", appointmentId := "a",
               updatedAt := 77 } := by
  have h3 := claim3_amended uiW sW evOkW (by decide)
  exact ⟨⟨by decide, rfl, rfl⟩, h3.1.1, h3.2.1 rfl rfl⟩

/-- C3 (counterexample): a failed delivery attempt does occur and the
cursor advances, yet no checkpoint at all is persisted for it — the
claim's "persists a checkpoint with status Active" after a failed
attempt is false. -/
theorem claim3_counterexample :
    (handleFlush uiW sW evFailW).2.isSome = true
    ∧ evFailW.uploadOk = false
    ∧ (handleFlush uiW sW evFailW).1.seq = sW.seq + 1
    ∧ (handleFlush uiW sW evFailW).1.persisted = none := by
  refine ⟨rfl, rfl, rfl, rfl⟩

/-- C4 (amended): a zero-length flushed window is dropped — not
delivered and not counted as an error — and the sequence/time cursor
does NOT advance: `seq`, `startMs`, and the persisted checkpoint are all
left unchanged while the loop keeps rotating. -/
theorem claim4_amended (ui : UiState) (s : MutState) (ev : FlushEvent)
    (hz : ev.size = 0) (hr : s.running = true) :
    (handleFlush ui s ev).2 = none
    ∧ (handleFlush ui s ev).1.seq = s.seq
    ∧ (handleFlush ui s ev).1.startMs = s.startMs
    ∧ (handleFlush ui s ev).1.errors = s.errors
    ∧ (handleFlush ui s ev).1.chunksSent = s.chunksSent
    ∧ (handleFlush ui s ev).1.persisted = s.persisted := by
  have h : ¬ 0 < ev.size := by omega
  unfold handleFlush
  simp [if_neg h, hr]

theorem claim4_witness :
    (evZeroW.size = 0 ∧ s5W.running = true)
    ∧ (handleFlush uiW s5W evZeroW).2 = none
    ∧ (handleFlush uiW s5W evZeroW).1.seq = s5W.seq
    ∧ (handleFlush uiW s5W evZeroW).1.startMs = s5W.startMs := by
  have h4 := claim4_amended uiW s5W evZeroW rfl rfl
  exact ⟨⟨rfl, rfl⟩, h4.1, h4.2.1, h4.2.2.1⟩

/-- C4 (counterexample): a zero-length flush at cursor `(5, 100)` with
`timesliceMs = 1000` is not delivered, but contrary to the claim the
cursor does not advance: `seq` stays 5 (not 6) and `startMs` stays 100
(not 1100). -/
theorem claim4_counterexample :
    (handleFlush uiW s5W evZeroW).2 = none
    ∧ (handleFlush uiW s5W evZeroW).1.errors = s5W.errors
    ∧ (handleFlush uiW s5W evZeroW).1.seq = 5
    ∧ ¬((handleFlush uiW s5W evZeroW).1.seq = 5 + 1)
    ∧ (handleFlush uiW s5W evZeroW).1.startMs = 100
    ∧ ¬((handleFlush uiW s5W evZeroW).1.startMs = 100 + 1000) := by
  refine ⟨rfl, rfl, rfl, by decide, rfl, by decide⟩

/-- A failed delivery of a non-empty window while the loop is running:
the error counter gains one, the loop keeps rotating (next window
opens), and neither the checkpoint nor the ready flag changes. -/
theorem handleFlush_fail (ui : UiState) (s : MutState) (ev : FlushEvent)
    (hsz : 0 < ev.size) (hko : ev.uploadOk = false) (hr : s.running = true) :
    (handleFlush ui s ev).1.running = true
    ∧ (handleFlush ui s ev).1.windowOpen = true
    ∧ (handleFlush ui s ev).1.errors = s.errors + 1
    ∧ (handleFlush ui s ev).1.persisted = s.persisted
    ∧ (handleFlush ui s ev).1.isReady = s.isReady := by
  unfold handleFlush
  simp [if_pos hsz, hko, hr]

/-- Flushing the draining window after `stop()`: no further window is
opened, the ready flag is set, and a `status = Ready` checkpoint is
persisted. -/
theorem handleFlush_stopped (ui : UiState) (s : MutState) (ev : FlushEvent)
    (hr : s.running = false) :
    (handleFlush ui s ev).1.windowOpen = false
    ∧ (handleFlush ui s ev).1.isReady = true
    ∧ (handleFlush ui s ev).1.running = false
    ∧ (handleFlush ui s ev).1.persisted.map PersistedSession.status = some Status.ready := by
  unfold handleFlush
  by_cases hsz : 0 < ev.size <;> by_cases hu : ev.uploadOk <;>
    simp [hsz, hu, hr, mkCheckpoint]

/-- Running `n` consecutive failing rotations from a rotating state:
the loop keeps rotating and the error counter gains exactly `n`. -/
theorem runSteps_failRun (ui : UiState) (ev : FlushEvent)
    (hsz : 0 < ev.size) (hko : ev.uploadOk = false) :
    ∀ (n : Nat) (s : MutState), s.running = true → s.windowOpen = true →
      (runSteps ui s (List.replicate n (Step.flush ev))).1.running = true
      ∧ (runSteps ui s (List.replicate n (Step.flush ev))).1.windowOpen = true
      ∧ (runSteps ui s (List.replicate n (Step.flush ev))).1.errors = s.errors + n
      ∧ (runSteps ui s (List.replicate n (Step.flush ev))).1.persisted = s.persisted
      ∧ (runSteps ui s (List.replicate n (Step.flush ev))).1.isReady = s.isReady := by
  intro n
  induction n with
  | zero => intro s hr hw; simp [runSteps, hr, hw]
  | succ k ih =>
    intro s hr hw
    simp only [List.replicate_succ, runSteps, stepOne, if_pos hw]
    obtain ⟨f1, f2, f3, f4, f5⟩ := handleFlush_fail ui s ev hsz hko hr
    obtain ⟨g1, g2, g3, g4, g5⟩ := ih (handleFlush ui s ev).1 f1 f2
    refine ⟨g1, g2, ?_, ?_, ?_⟩
    · rw [g3, f3]; omega
    · rw [g4, f4]
    · rw [g5, f5]

theorem handleFlush_errors (ui : UiState) (s : MutState) (ev : FlushEvent)
    (hsz : 0 < ev.size) (hko : ev.uploadOk = false) :
    (handleFlush ui s ev).1.errors = s.errors + 1 := by
  unfold handleFlush
  by_cases hr : s.running <;> simp [if_pos hsz, hko, hr]

theorem stopRecording_proj (s : MutState) (hw : s.windowOpen = true) :
    (stopRecording s).running = false
    ∧ (stopRecording s).windowOpen = true
    ∧ (stopRecording s).errors = s.errors := by
  unfold stopRecording
  simp [hw]

theorem runSteps_append_fst (ui : UiState) (l1 l2 : List Step) :
    ∀ s : MutState, (runSteps ui s (l1 ++ l2)).1 = (runSteps ui (runSteps ui s l1).1 l2).1 := by
  induction l1 with
  | nil => intro s; simp [runSteps]
  | cons st rest ih => intro s; simp only [List.cons_append, runSteps]; exact ih _

/-- C5: A failed delivery increments the error counter by exactly 1, is
not retried, and does not halt rotation: after N consecutive rotations
in which every delivery fails (the last being the draining window after
`stop()`), the loop still reaches the stopped/ready state cleanly and
the error counter equals N. -/
theorem claim5_fail_does_not_halt (ui : UiState) (s : MutState) (ev : FlushEvent)
    (n : Nat) (hsz : 0 < ev.size) (hko : ev.uploadOk = false)
    (hr : s.running = true) (hw : s.windowOpen = true) (he : s.errors = 0) :
    (runSteps ui s (List.replicate n (Step.flush ev) ++ [Step.stop, Step.flush ev])).1.errors = n + 1
    ∧ (runSteps ui s (List.replicate n (Step.flush ev) ++ [Step.stop, Step.flush ev])).1.isReady = true
    ∧ (runSteps ui s (List.replicate n (Step.flush ev) ++ [Step.stop, Step.flush ev])).1.windowOpen = false
    ∧ (runSteps ui s (List.replicate n (Step.flush ev) ++ [Step.stop, Step.flush ev])).1.running = false
    ∧ (runSteps ui s (List.replicate n (Step.flush ev) ++ [Step.stop, Step.flush ev])).1.persisted.map PersistedSession.status = some Status.ready := by
  obtain ⟨g1, g2, g3, g4, g5⟩ := runSteps_failRun ui ev hsz hko n s hr hw
  rw [runSteps_append_fst]
  obtain ⟨p1, p2, p3⟩ :=
    stopRecording_proj (runSteps ui s (List.replicate n (Step.flush ev))).1 g2
  have herr :=
    handleFlush_errors ui (stopRecording (runSteps ui s (List.replicate n (Step.flush ev))).1) ev hsz hko
  obtain ⟨q1, q2, q3, q4⟩ :=
    handleFlush_stopped ui (stopRecording (runSteps ui s (List.replicate n (Step.flush ev))).1) ev p1
  have hred : (runSteps ui (runSteps ui s (List.replicate n (Step.flush ev))).1
        [Step.stop, Step.flush ev]).1
      = (handleFlush ui (stopRecording (runSteps ui s (List.replicate n (Step.flush ev))).1) ev).1 := by
    simp only [runSteps, stepOne, if_pos p2]
  rw [hred]
  refine ⟨?_, q2, q1, q3, q4⟩
  rw [herr, p3, g3, he]
  omega

theorem claim5_witness :
    (0 < evFailW.size ∧ evFailW.uploadOk = false ∧ sW.running = true
      ∧ sW.windowOpen = true ∧ sW.errors = 0)
    ∧ (runSteps uiW sW (List.replicate 2 (Step.flush evFailW) ++ [Step.stop, Step.flush evFailW])).1.errors = 3
    ∧ (runSteps uiW sW (List.replicate 2 (Step.flush evFailW) ++ [Step.stop, Step.flush evFailW])).1.isReady = true := by
  have h := claim5_fail_does_not_halt uiW sW evFailW 2 (by decide) rfl rfl rfl rfl
  exact ⟨⟨by decide, rfl, rfl, rfl, rfl⟩, h.1, h.2.1⟩

/-- C6: Calling stop() while a window is rotating results in exactly one
more delivery attempt (the draining window), after which no further
window is opened; once that final attempt completes a checkpoint with
status Ready is persisted and the loop terminates (a later flush is a
no-op). -/
theorem claim6_stop_drains_once (ui : UiState) (s : MutState) (ev ev2 : FlushEvent)
    (hr : s.running = true) (hw : s.windowOpen = true) (hsz : 0 < ev.size) :
    (runSteps ui s [Step.stop, Step.flush ev, Step.flush ev2]).2.length = 1
    ∧ (runSteps ui s [Step.stop, Step.flush ev, Step.flush ev2]).1.windowOpen = false
    ∧ (runSteps ui s [Step.stop, Step.flush ev, Step.flush ev2]).1.isReady = true
    ∧ (runSteps ui s [Step.stop, Step.flush ev, Step.flush ev2]).1.running = false
    ∧ (runSteps ui s [Step.stop, Step.flush ev, Step.flush ev2]).1.persisted.map PersistedSession.status = some Status.ready := by
  obtain ⟨p1, p2, p3⟩ := stopRecording_proj s hw
  obtain ⟨q1, q2, q3, q4⟩ := handleFlush_stopped ui (stopRecording s) ev p1
  have ha := (handleFlush_pos ui (stopRecording s) ev hsz).1
  have hno : ¬((handleFlush ui (stopRecording s) ev).1.windowOpen = true) := by
    rw [q1]; exact Bool.false_ne_true
  refine ⟨?_, ?_, ?_, ?_, ?_⟩ <;>
    simp only [runSteps, stepOne, if_pos p2, if_neg hno, List.nil_append, List.append_nil]
  · rw [ha]; rfl
  · exact q1
  · exact q2
  · exact q3
  · exact q4

theorem claim6_witness :
    (sW.running = true ∧ sW.windowOpen = true ∧ 0 < evOkW.size)
    ∧ (runSteps uiW sW [Step.stop, Step.flush evOkW, Step.flush evZeroW]).2.length = 1
    ∧ (runSteps uiW sW [Step.stop, Step.flush evOkW, Step.flush evZeroW]).1.persisted.map PersistedSession.status = some Status.ready := by
  have h := claim6_stop_drains_once uiW sW evOkW evZeroW rfl rfl (by decide)
  exact ⟨⟨rfl, rfl, by decide⟩, h.1, h.2.2.2.2⟩

/-- C2: If start is called with a persisted checkpoint whose sessionId
equals the current sessionId and whose status is Active (seq >= 0), the
next delivered segment carries exactly the checkpoint's seq and
startMs; if the checkpoint's sessionId differs, the checkpoint is
ignored and recording starts fresh with seq = 0 and startMs = now(). -/
theorem claim2_resume_semantics (ui : UiState) (s : MutState) (p : PersistedSession)
    (nowMs : Int) (ev : FlushEvent) (hp : s.persisted = some p) :
    (p.status = Status.active → p.sessionId = ui.sessionId → 0 ≤ p.seq → 0 < ev.size →
      (handleFlush ui (startRecordingMic ui s nowMs) ev).2 =
        some { sessionId := ui.sessionId, seq := p.seq, startMs := p.startMs,
               endMs := p.startMs + ui.timesliceMs,
               therapistId := ui.therapistId, patientId := ui.patientId,
               organizationId := ui.organizationId, appointmentId := ui.appointmentId,
               size := ev.size, ok := ev.uploadOk })
    ∧ (p.sessionId ≠ ui.sessionId →
        (startRecordingMic ui s nowMs).seq = 0
        ∧ (startRecordingMic ui s nowMs).startMs = nowMs) := by
  constructor
  · intro h1 h2 h3 h4
    have e1 : (startRecordingMic ui s nowMs).seqBox = p.seq := by
      simp only [startRecordingMic, hp]
      rw [if_pos ⟨h1, h2, h3⟩]
    have e2 : (startRecordingMic ui s nowMs).startMs = p.startMs := by
      simp only [startRecordingMic, hp]
      rw [if_pos ⟨h1, h2, h3⟩]
    rw [(handleFlush_pos ui (startRecordingMic ui s nowMs) ev h4).1, e1, e2]
  · intro hne
    have hcond : ¬(p.status = Status.active ∧ p.sessionId = ui.sessionId ∧ 0 ≤ p.seq) := by
      rintro ⟨-, hsid, -⟩
      exact hne hsid
    constructor <;> (simp only [startRecordingMic, hp]; rw [if_neg hcond]; rfl)

theorem claim2_witness :
    (sResW.persisted = some cpW ∧ cpW.status = Status.active
      ∧ cpW.sessionId = uiW.sessionId ∧ 0 ≤ cpW.seq ∧ 0 < evOkW.size
      ∧ cpW.sessionId ≠ uiDiffW.sessionId)
    ∧ (handleFlush uiW (startRecordingMic uiW sResW 99) evOkW).2 =
        some { sessionId := "s1", seq := 5, startMs := 5000, endMs := 6000,
               therapistId := "t", patientId := "p", organizationId := "o",
               appointmentId := "a", size := 5, ok := true }
    ∧ (startRecordingMic uiDiffW sResW 99).seq = 0
    ∧ (startRecordingMic uiDiffW sResW 99).startMs = 99 := by
  have hres := (claim2_resume_semantics uiW sResW cpW 99 evOkW rfl).1 rfl rfl
    (by decide) (by decide)
  have hfresh := (claim2_resume_semantics uiDiffW sResW cpW 99 evOkW rfl).2 (by decide)
  exact ⟨⟨rfl, rfl, rfl, by decide, by decide, by decide⟩, hres, hfresh.1, hfresh.2⟩

/-- C7 (amended): In the canonical App.tsx `finalize`, a successful
finalize clears the checkpoint (a subsequent load returns none) and a
failed finalize leaves it intact and re-attemptable; in the part_000
variant `stopAndFinalizeRecording`, however, the `finally` block clears
the checkpoint regardless of the finalize outcome. -/
theorem claim7_amended (store : Option PersistedSession) (callOk : Bool) :
    (callOk = true → finalizeClick store callOk = none
      ∧ loadPersisted (finalizeClick store callOk) = none)
    ∧ (callOk = false → finalizeClick store callOk = store
      ∧ loadPersisted (finalizeClick store callOk) = store)
    ∧ stopAndFinalizeStore store callOk = none := by
  refine ⟨?_, ?_, ?_⟩
  · intro h; simp [finalizeClick, loadPersisted, h]
  · intro h; simp [finalizeClick, loadPersisted, h]
  · by_cases h : callOk <;> simp [stopAndFinalizeStore, h]

theorem claim7_witness :
    (finalizeClick (some cpW) true = none
      ∧ loadPersisted (finalizeClick (some cpW) true) = none)
    ∧ finalizeClick (some cpW) false = some cpW := by
  have h1 := (claim7_amended (some cpW) true).1 rfl
  have h2 := (claim7_amended (some cpW) false).2.1 rfl
  exact ⟨h1, h2.1⟩

/-- C7 (counterexample): in the part_000 variant cited by the claim, a
failed finalize still clears the checkpoint: from a store holding `cpW`,
`stopAndFinalizeRecording` with a rejecting `finalizeSession` leaves the
store empty — the checkpoint is not left intact for a retry. -/
theorem claim7_counterexample :
    stopAndFinalizeStore (some cpW) false = none
    ∧ ¬(stopAndFinalizeStore (some cpW) false = some cpW)
    ∧ loadPersisted (stopAndFinalizeStore (some cpW) false) = none := by
  refine ⟨rfl, ?_, rfl⟩
  intro h
  exact Option.noConfusion h

/-- C8: finalizeSession distinguishes results by response content: a
non-ok status throws; an ok status with an empty or whitespace-only
body returns null; an ok status with a body the JSON parser accepts
returns the parsed value; otherwise the body is returned as text. -/
theorem claim8_finalize_result (parseJson : String → Option Json) (resp : HttpResponse) :
    (resp.ok = false → ∃ e, finalizeSession parseJson resp = Except.error e)
    ∧ (resp.ok = true → jsTrim resp.body = "" →
        finalizeSession parseJson resp = Except.ok FinalizeResult.nullResult)
    ∧ (resp.ok = true → jsTrim resp.body ≠ "" → ∀ j, parseJson resp.body = some j →
        finalizeSession parseJson resp = Except.ok (FinalizeResult.jsonResult j))
    ∧ (resp.ok = true → jsTrim resp.body ≠ "" → parseJson resp.body = none →
        finalizeSession parseJson resp = Except.ok (FinalizeResult.textResult resp.body)) := by
  refine ⟨?_, ?_, ?_, ?_⟩
  · intro h
    refine ⟨"Server responded with " ++ toString resp.status ++ ": " ++ resp.body, ?_⟩
    simp [finalizeSession, h]
  · intro h1 h2; simp [finalizeSession, h1, h2]
  · intro h1 h2 j h3; simp [finalizeSession, h1, h2, h3]
  · intro h1 h2 h3; simp [finalizeSession, h1, h2, h3]

theorem claim8_witness :
    (∃ e, finalizeSession parseOnlyOneW respErrW = Except.error e)
    ∧ finalizeSession parseOnlyOneW respEmptyW = Except.ok FinalizeResult.nullResult
    ∧ finalizeSession parseOnlyOneW respJsonW = Except.ok (FinalizeResult.jsonResult (Json.jnum 1))
    ∧ finalizeSession parseOnlyOneW respTextW = Except.ok (FinalizeResult.textResult "plain") := by
  refine ⟨(claim8_finalize_result parseOnlyOneW respErrW).1 rfl,
    (claim8_finalize_result parseOnlyOneW respEmptyW).2.1 rfl (by decide),
    (claim8_finalize_result parseOnlyOneW respJsonW).2.2.1 rfl (by decide)
      (Json.jnum 1) (by decide),
    (claim8_finalize_result parseOnlyOneW respTextW).2.2.2 rfl (by decide) (by decide)⟩

/-- C9 (amended): participant refs with non-empty values are forwarded
opaquely, with their exact string values, to both the upload form data
and the finalize JSON body; a present-but-empty ref is kept verbatim in
the finalize body but omitted from the upload form data by the JS
truthiness guard `if (p.x)`. -/
theorem claim9_amended (cp : ChunkParams) (fp : FinalizePayload) (v : String)
    (hv : v ≠ "") :
    (cp.therapistId = some v → ("therapistId", v) ∈ uploadChunkForm cp)
    ∧ (cp.patientId = some v → ("patientId", v) ∈ uploadChunkForm cp)
    ∧ (cp.organizationId = some v → ("organizationId", v) ∈ uploadChunkForm cp)
    ∧ (cp.appointmentId = some v → ("appointmentId", v) ∈ uploadChunkForm cp)
    ∧ (fp.therapistId = some v → ("therapistId", v) ∈ finalizeBody fp)
    ∧ (fp.patientId = some v → ("patientId", v) ∈ finalizeBody fp)
    ∧ (fp.organizationId = some v → ("organizationId", v) ∈ finalizeBody fp)
    ∧ (fp.appointmentId = some v → ("appointmentId", v) ∈ finalizeBody fp)
    ∧ ("therapistId", "") ∈ finalizeBody fpEmptyW
    ∧ "therapistId" ∉ (uploadChunkForm cpEmptyW).map Prod.fst := by
  refine ⟨?_, ?_, ?_, ?_, ?_, ?_, ?_, ?_, by decide, by decide⟩ <;>
    (intro h; simp [uploadChunkForm, finalizeBody, optField, jsonField, h, hv])

theorem claim9_witness :
    ("x" ≠ ""
      ∧ ("therapistId", "x") ∈ uploadChunkForm { cpEmptyW with therapistId := some "x" }
      ∧ ("therapistId", "x") ∈ finalizeBody { fpEmptyW with therapistId := some "x" }) := by
  have h := claim9_amended { cpEmptyW with therapistId := some "x" }
    { fpEmptyW with therapistId := some "x" } "x" (by decide)
  exact ⟨by decide, h.1 rfl, h.2.2.2.2.1 rfl⟩

/-- C9 (counterexample): with `therapistId` present but equal to the
empty string, the ref is kept in the finalize JSON body but dropped
from the upload form data — so empty-string refs are not forwarded to
both calls as the claim states. -/
theorem claim9_counterexample :
    cpEmptyW.therapistId = some ""
    ∧ ("therapistId", "") ∈ finalizeBody fpEmptyW
    ∧ ("therapistId", "") ∉ uploadChunkForm cpEmptyW := by
  decide

/-- C10: Every capture window's flush handler runs at most once: the
ondataavailable handler detaches itself on its first invocation, so a
second fire on the same window performs no delivery attempt and leaves
the state unchanged. -/
theorem claim10_handler_fires_once (ui : UiState) (attached : Bool) (s : MutState)
    (ev ev2 : FlushEvent) :
    (fireWindow ui attached s ev).1 = false
    ∧ fireWindow ui (fireWindow ui attached s ev).1 (fireWindow ui attached s ev).2.1 ev2
      = (false, (fireWindow ui attached s ev).2.1, none) := by
  cases attached <;> simp [fireWindow]
